import Mathlib

/-!
Formal model of `sequelize-pg-generator` (src/index.js): the
schema-introspection-to-model transformation.  The embedding covers the
type classifier (`getColumnType`), the default-value resolution chain and
column assembly inside `generateTableDefinition`, the per-table generation
loop (`generateDefinitions`), the foreign-key self-join and association
registration (`generateAssociations`), and the per-model association
deduplication used when emitting TypeScript instance blocks.

String processing is modelled over character lists so that every
definition evaluates by kernel reduction.  JavaScript regular expressions
are translated to explicit matching functions on the exact pattern shapes
the source uses.
-/

/-! ## String helpers (kernel-computable replacements for String library ops) -/

/-- Does the second list start with the first? -/
def chStart : List Char → List Char → Bool
  | [], _ => true
  | _ :: _, [] => false
  | p :: ps, c :: cs => p == c && chStart ps cs

/-- `s` starts with `p` (model of JS `/^pat/` anchoring / `String.prototype.startsWith`). -/
def strHasStart (s p : String) : Bool := chStart p.toList s.toList

/-- `s` ends with `p` (model of a `$`-anchored suffix match). -/
def strHasEnd (s p : String) : Bool := chStart p.toList.reverse s.toList.reverse

/-- Drop `n` characters from the start of `s`. -/
def strDropStart (s : String) (n : Nat) : String := ⟨s.toList.drop n⟩

/-- Drop `n` characters from the end of `s`. -/
def strDropEnd (s : String) (n : Nat) : String := ⟨(s.toList.reverse.drop n).reverse⟩

/-- Character count of `s`. -/
def strLen (s : String) : Nat := s.toList.length

/-- Model of JS `String.prototype.split(',')`. -/
def splitComma : List Char → List (List Char)
  | [] => [[]]
  | c :: rest =>
    let r := splitComma rest
    if c == ',' then [] :: r
    else
      match r with
      | [] => [[c]]
      | h :: t => (c :: h) :: t

/-- The characters after the first single quote, when one occurs. -/
def afterFirstQuote : List Char → Option (List Char)
  | [] => none
  | c :: rest => if c == '\'' then some rest else afterFirstQuote rest

/-- Model of JS `Array.prototype.join(sep)`. -/
def joinWith (sep : String) : List String → String
  | [] => ""
  | [x] => x
  | x :: xs => x ++ sep ++ joinWith sep xs

/-- Model of `toCamelCase`: `value.replace(/_([a-zA-Z])/g, (_, c) => c.toUpperCase())`.
An underscore followed by an ASCII letter is replaced by the upper-cased letter;
any other underscore is kept. -/
def camelAux : List Char → List Char
  | [] => []
  | '_' :: c :: rest => if c.isAlpha then c.toUpper :: camelAux rest else '_' :: camelAux (c :: rest)
  | c :: rest => c :: camelAux rest

/-- Source `toCamelCase`. -/
def toCamelCase (s : String) : String := ⟨camelAux s.toList⟩

/-- Source `toPascalCase`: camel-case, then upper-case the first character. -/
def toPascalCase (s : String) : String :=
  match toCamelCase s with
  | ⟨[]⟩ => ⟨[]⟩
  | ⟨c :: rest⟩ => ⟨c.toUpper :: rest⟩

/-- Lexicographic order on character lists (model of SQL `ORDER BY` on names). -/
def chLe : List Char → List Char → Bool
  | [], _ => true
  | _ :: _, [] => false
  | a :: al, b :: bl => if a < b then true else if a == b then chLe al bl else false

/-- Lexicographic order on strings. -/
def strLe (a b : String) : Bool := chLe a.toList b.toList

/-! ## JavaScript value helpers -/

/-- The value of a leading run of decimal digits; `none` when there is none. -/
def digitsVal (cs : List Char) : Option Nat :=
  let ds := cs.takeWhile Char.isDigit
  if ds.isEmpty then none
  else some (ds.foldl (fun a c => a * 10 + (c.toNat - 48)) 0)

/-- Model of JS `parseInt(s)` with inferred radix 10: skip leading ASCII
whitespace, read an optional sign and then the leading digit run; `none`
models the `NaN` result when no digits follow.  (The hexadecimal-literal form
of `parseInt` is not modelled: no catalog default expression begins with `0x`.) -/
def jsParseInt (s : String) : Option Int :=
  let t := s.toList.dropWhile (fun c => c == ' ' || c == '\t' || c == '\n' || c == '\r')
  match t with
  | '-' :: rest => (digitsVal rest).map (fun n => -(n : Int))
  | '+' :: rest => (digitsVal rest).map (fun n => (n : Int))
  | _ => (digitsVal t).map (fun n => (n : Int))

/-- Model of `JSON.stringify` on a string: wrap in double quotes, escaping
quote and backslash (control-character escapes are not modelled; no catalog
identifier or default literal in scope contains one). -/
def jsonEscapeChar (c : Char) : String :=
  if c == '"' then "\\\"" else if c == '\\' then "\\\\" else String.singleton c

/-- `JSON.stringify` applied to a string value. -/
def jsonStringify (s : String) : String :=
  "\"" ++ String.join (s.toList.map jsonEscapeChar) ++ "\""

/-- JS template interpolation of a possibly-`undefined` string. -/
def jsUndef : Option String → String
  | some s => s
  | none => "undefined"

/-- JS `a || b` on an optional string (`null`, `undefined` and `""` are falsy). -/
def jsOr (a : Option String) (b : String) : String :=
  match a with
  | some s => if s == "" then b else s
  | none => b

/-- JS `String.prototype.substring(1, s.length - 1)` with its clamp-and-swap
semantics: on a string of length ≤ 1 the arguments swap or clamp and the
string is returned unchanged; otherwise the first and last character drop. -/
def jsSub1 (s : String) : String :=
  if strLen s ≤ 1 then s else strDropEnd (strDropStart s 1) 1

/-! ## Catalog column rows and the type classifier (`getColumnType`) -/

/-- One row of the per-table column catalog query: column name, raw default
expression text, nullability flag, raw SQL data-type name, character length,
underlying type name (`udt_name::regtype`), the aggregated enum-label text,
and the set of constraint-type strings the column participates in.
Optional fields model SQL `NULL` / JS `undefined`. -/
structure ColRow where
  column_name : String := ""
  column_default : Option String := none
  is_nullable : String := "NO"
  data_type : String := ""
  character_maximum_length : Option Nat := none
  udt_name : Option String := none
  enum_values : Option String := none
  keys : List String := []
deriving DecidableEq

/-- The triple `getColumnType` builds: storage type text, doc scalar kind,
optional human comment, TypeScript type text. -/
structure TypeData where
  dataType : String
  docType : String
  comment : Option String
  tsType : String
deriving DecidableEq

/-- `row.character_maximum_length || 'null'` interpolated into the storage
type text (`0` is falsy in JS, like `null`/`undefined`). -/
def lenParam : Option Nat → String
  | some n => if n != 0 then toString n else "null"
  | none => "null"

/-- The enum labels: `row.enum_values.substring(1, row.enum_values.length - 1).split(',')`. -/
def enumLabels (s : String) : List String :=
  (splitComma (jsSub1 s).toList).map (fun cs => ⟨cs⟩)

/-- `row.udt_name.replace(/\[]$/, '')`: strip one trailing `[]` marker. -/
def stripArraySuffix (u : String) : String :=
  if strHasEnd u "[]" then strDropEnd u 2 else u

/-- The thrown `TypeError` when a field the branch reads is `null`/`undefined`. -/
def typeErrorOn (fieldName : String) : String :=
  "TypeError: " ++ fieldName ++ " is null or undefined"

/-- The classifier applied to the row the `ARRAY` branch rebuilds: the source
recurses as `getColumnType({data_type: row.udt_name.replace(/\[]$/, '')})`,
a row holding only `data_type`, so `character_maximum_length`, `udt_name` and
`enum_values` are all `undefined` here.  In particular a nested `ARRAY` or a
`USER-DEFINED` element fails with a `TypeError` instead of recursing further. -/
def getColumnTypeOfName (dt : String) : Except String TypeData :=
  if dt == "integer" then .ok ⟨"INTEGER", "number", none, "number"⟩
  else if dt == "smallint" then .ok ⟨"INTEGER", "number", none, "number"⟩
  else if dt == "numeric" then .ok ⟨"DOUBLE", "number", none, "number"⟩
  else if dt == "character varying" then .ok ⟨"STRING(null)", "string", none, "string"⟩
  else if dt == "character" then .ok ⟨"CHAR(null)", "string", none, "string"⟩
  else if dt == "date" then .ok ⟨"DATEONLY", "Date", none, "Date"⟩
  else if dt == "timestamp with time zone" then .ok ⟨"DATE", "Date", none, "Date"⟩
  else if dt == "jsonb" then .ok ⟨"JSONB", "Object", none, "any"⟩
  else if dt == "json" then .ok ⟨"JSON", "Object", none, "any"⟩
  else if dt == "boolean" then .ok ⟨"BOOLEAN", "boolean", none, "boolean"⟩
  else if dt == "USER-DEFINED" then .error (typeErrorOn "enum_values")
  else if dt == "text" then .ok ⟨"TEXT", "string", none, "string"⟩
  else if dt == "ARRAY" then .error (typeErrorOn "udt_name")
  else .error ("Unhandled data type: " ++ dt)

/-- Source `getColumnType`: the switch over `row.data_type`.  Unrecognized
type names throw `Unhandled data type: …`; the `ARRAY` branch classifies the
element type name (trailing `[]` stripped) through `getColumnTypeOfName` and
wraps the result; the `USER-DEFINED` branch splits the aggregated enum-label
text into an `ENUM(…)` storage tag. -/
def getColumnType (row : ColRow) : Except String TypeData :=
  if row.data_type == "integer" then .ok ⟨"INTEGER", "number", none, "number"⟩
  else if row.data_type == "smallint" then .ok ⟨"INTEGER", "number", none, "number"⟩
  else if row.data_type == "numeric" then .ok ⟨"DOUBLE", "number", none, "number"⟩
  else if row.data_type == "character varying" then
    .ok ⟨"STRING(" ++ lenParam row.character_maximum_length ++ ")", "string", none, "string"⟩
  else if row.data_type == "character" then
    .ok ⟨"CHAR(" ++ lenParam row.character_maximum_length ++ ")", "string", none, "string"⟩
  else if row.data_type == "date" then .ok ⟨"DATEONLY", "Date", none, "Date"⟩
  else if row.data_type == "timestamp with time zone" then .ok ⟨"DATE", "Date", none, "Date"⟩
  else if row.data_type == "jsonb" then .ok ⟨"JSONB", "Object", none, "any"⟩
  else if row.data_type == "json" then .ok ⟨"JSON", "Object", none, "any"⟩
  else if row.data_type == "boolean" then .ok ⟨"BOOLEAN", "boolean", none, "boolean"⟩
  else if row.data_type == "USER-DEFINED" then
    match row.enum_values with
    | none => .error (typeErrorOn "enum_values")
    | some ev =>
      .ok ⟨"ENUM('" ++ joinWith "', '" (enumLabels ev) ++ "')", "string",
           some ("user defined type: " ++ jsUndef row.udt_name), "string"⟩
  else if row.data_type == "text" then .ok ⟨"TEXT", "string", none, "string"⟩
  else if row.data_type == "ARRAY" then
    match row.udt_name with
    | none => .error (typeErrorOn "udt_name")
    | some u =>
      match getColumnTypeOfName (stripArraySuffix u) with
      | .error e => .error e
      | .ok inner =>
        .ok ⟨"ARRAY(DataTypes." ++ inner.dataType ++ ")", "Array", some u, inner.tsType ++ "[]"⟩
  else .error ("Unhandled data type: " ++ row.data_type)

example : getColumnType { data_type := "integer" } = .ok ⟨"INTEGER", "number", none, "number"⟩ := rfl

example :
    getColumnType { data_type := "character varying", character_maximum_length := some 255 } =
      .ok ⟨"STRING(255)", "string", none, "string"⟩ := rfl

example :
    getColumnType { data_type := "USER-DEFINED", udt_name := some "mood", enum_values := some "{happy,sad}" } =
      .ok ⟨"ENUM('happy', 'sad')", "string", some "user defined type: mood", "string"⟩ := rfl

example :
    getColumnType { data_type := "ARRAY", udt_name := some "integer[]" } =
      .ok ⟨"ARRAY(DataTypes.INTEGER)", "Array", some "integer[]", "number[]"⟩ := rfl

example : getColumnType { data_type := "money" } = .error "Unhandled data type: money" := rfl

/-! ## Default-value resolution (the ordered regex chain of `generateTableDefinition`) -/

/-- The heterogeneous JS values the `defaultValue` variable can hold, as a
tagged union.  `numLit none` models the JS `NaN` that `parseInt` yields on
text without a leading digit run. -/
inductive Lit where
  | jsonStr (s : String)
  | rawText (s : String)
  | nowSentinel
  | boolLit (b : Bool)
  | numLit (n : Option Int)
  | emptyArrayLit
deriving DecidableEq

/-- The text the template `defaultValue: ${defaultValue}` interpolates for
each resolved value (JS string coercion). -/
def litText : Lit → String
  | .jsonStr s => jsonStringify s
  | .rawText s => s
  | .nowSentinel => "DataTypes.NOW"
  | .boolLit b => if b then "true" else "false"
  | .numLit none => "NaN"
  | .numLit (some n) => toString n
  | .emptyArrayLit => "[]"

/-- `/^nextval\(/`, the auto-increment detector's anchor text. -/
def nextvalMarker : String := "nextval("

/-- Match of `/^'(.*)'(?:::character varying)?$/`: a quoted literal spanning
the whole text, optionally ending in a `::character varying` cast.  The
greedy `(.*)` prefers the closing quote at the very end, so the plain-quote
ending is tried first; the captured middle is returned. -/
def rule1Match (d : String) : Option String :=
  if strHasStart d "'" then
    if strHasEnd d "'" then
      if 2 ≤ strLen d then some (strDropEnd (strDropStart d 1) 1) else none
    else if strHasEnd d "'::character varying" then
      if 21 ≤ strLen d then some (strDropEnd (strDropStart d 1) 20) else none
    else none
  else none

/-- The capture of `'(.+)'::SUFFIX$` once the closing `'::SUFFIX` end has been
removed: everything after the first quote of the remaining text, which must be
non-empty. -/
def quotedCapture (core : String) : Option String :=
  match afterFirstQuote core.toList with
  | none => none
  | some [] => none
  | some rest => some ⟨rest⟩

/-- Match of `/'(.+)'::jsonb$/` (unanchored at the start): the text ends with
a quoted literal cast to `jsonb`; the capture runs from the first quote of the
text to the closing quote before the cast. -/
def rule2Match (d : String) : Option String :=
  if strHasEnd d "'::jsonb" then quotedCapture (strDropEnd d 8) else none

/-- Match of ``new RegExp(`'(.+)'::${row.udt_name}$`)``: like the `jsonb`
rule with the user-defined type name as the cast.  The type name is spliced
into the pattern verbatim; it is modelled as a literal suffix (no catalog
type name in scope contains a regex metacharacter). -/
def rule8Match (udt : String) (d : String) : Option String :=
  if strHasEnd d ("'::" ++ udt) then quotedCapture (strDropEnd d (3 + strLen udt)) else none

/-- The default-resolution chain of `generateTableDefinition` (first match
wins), over the storage type text `dataType` computed by `getColumnType` and
the row's raw `data_type`, `udt_name` and `column_default`.  Returns the
resolved `defaultValue` (or none) and the `isAutoIncrement` flag.  A `null`
default fails rules 1–4 (JS coerces `null` to the text `"null"`, which none
of the patterns match), is falsy for rules 5–7 and cannot match rule 8. -/
def resolveDefault (dataType data_type : String) (udt_name : Option String)
    (column_default : Option String) : Option Lit × Bool :=
  match column_default with
  | none => (none, false)
  | some d =>
    match rule1Match d with
    | some cap => (some (Lit.jsonStr cap), false)
    | none =>
      match rule2Match d with
      | some cap => (some (Lit.rawText cap), false)
      | none =>
        if d == "now()" then (some Lit.nowSentinel, false)
        else if strHasStart d nextvalMarker then (none, true)
        else if d != "" && dataType == "BOOLEAN" then (some (Lit.boolLit (d != "false")), false)
        else if d != "" && dataType == "INTEGER" then (some (Lit.numLit (jsParseInt d)), false)
        else if d != "" && data_type == "ARRAY" then (some Lit.emptyArrayLit, false)
        else if data_type == "USER-DEFINED" then
          match rule8Match (jsUndef udt_name) d with
          | some cap => (some (Lit.jsonStr cap), false)
          | none => (none, false)
        else (none, false)

example : resolveDefault "STRING(255)" "character varying" none (some "'abc'::character varying") =
    (some (.jsonStr "abc"), false) := by decide

example : resolveDefault "DATE" "timestamp with time zone" none (some "now()") =
    (some .nowSentinel, false) := by decide

example : resolveDefault "INTEGER" "integer" none (some "nextval('foo_id_seq'::regclass)") =
    (none, true) := by decide

example : resolveDefault "BOOLEAN" "boolean" none (some "false") =
    (some (.boolLit false), false) := by decide

example : resolveDefault "BOOLEAN" "boolean" none (some "true") =
    (some (.boolLit true), false) := by decide

example : resolveDefault "INTEGER" "integer" none (some "42") =
    (some (.numLit (some 42)), false) := by decide

example : resolveDefault "DOUBLE" "numeric" none (some "3.14") = (none, false) := by decide

example : resolveDefault "INTEGER" "integer" none (some "NULL::integer") =
    (some (.numLit none), false) := by decide

example : resolveDefault "JSONB" "jsonb" none (some "'{}'::jsonb") =
    (some (.rawText "{}"), false) := by decide

example : resolveDefault "DOUBLE" "numeric" none (some "nextval('x'::jsonb") =
    (some (.rawText "x"), false) := by decide

example : resolveDefault "ENUM('happy', 'sad')" "USER-DEFINED" (some "mood") (some "'happy'::mood") =
    (some (.jsonStr "happy"), false) := by decide

/-! ## Column assembly and the per-table generation loop -/

/-- The normalized column descriptor `generateTableDefinition` pushes into
`columnData` for each kept row. -/
structure ColumnData where
  name : String
  field : String
  dataType : String
  docType : String
  tsType : String
  typeComment : String
  isPrimaryKey : Bool
  allowNull : Bool
  autoIncrement : Bool
  defaultValue : Option Lit
deriving DecidableEq

/-- One kept row's descriptor: classify the type (which may throw), resolve
the default, and read constraint membership and nullability off the row. -/
def buildColumn (camelCase : Bool) (row : ColRow) : Except String ColumnData :=
  match getColumnType row with
  | .error e => .error e
  | .ok td =>
    let rd := resolveDefault td.dataType row.data_type row.udt_name row.column_default
    .ok { name := if camelCase then toCamelCase row.column_name else row.column_name
        , field := row.column_name
        , dataType := td.dataType
        , docType := td.docType
        , tsType := td.tsType
        , typeComment := jsOr td.comment row.data_type
        , isPrimaryKey := row.keys.contains "PRIMARY KEY"
        , allowNull := row.is_nullable == "YES"
        , autoIncrement := rd.2
        , defaultValue := rd.1 }

/-- The row loop of `generateTableDefinition`: when the foreign-key-inclusion
flag is off, a row whose constraint set contains `FOREIGN KEY` is skipped
before any classification; otherwise the column is built (a classification
error aborts the whole run, like the thrown JS error). -/
def generateColumns (includeForeignKeys camelCase : Bool) : List ColRow → Except String (List ColumnData)
  | [] => .ok []
  | row :: rest =>
    if !includeForeignKeys && row.keys.contains "FOREIGN KEY" then
      generateColumns includeForeignKeys camelCase rest
    else
      match buildColumn camelCase row with
      | .error e => .error e
      | .ok c =>
        match generateColumns includeForeignKeys camelCase rest with
        | .error e => .error e
        | .ok cs => .ok (c :: cs)

/-- The per-table aggregate the run produces: the table's name and its
ordered column descriptors. -/
structure ModelDef where
  tableName : String
  columns : List ColumnData
deriving DecidableEq

/-- `generateTableDefinition` for one table, given the (pre-fetched) column
rows of each table. -/
def generateTableDefinition (includeForeignKeys camelCase : Bool)
    (colsOf : String → List ColRow) (t : String) : Except String ModelDef :=
  match generateColumns includeForeignKeys camelCase (colsOf t) with
  | .error e => .error e
  | .ok cs => .ok ⟨t, cs⟩

/-- The `for` loop of `generateDefinitions`: one table after the other, in
the order of the table list, aborting on the first error. -/
def generateDefinitions (includeForeignKeys camelCase : Bool)
    (colsOf : String → List ColRow) : List String → Except String (List ModelDef)
  | [] => .ok []
  | t :: ts =>
    match generateTableDefinition includeForeignKeys camelCase colsOf t with
    | .error e => .error e
    | .ok d =>
      match generateDefinitions includeForeignKeys camelCase colsOf ts with
      | .error e => .error e
      | .ok ds => .ok (d :: ds)

/-- Insert into a name-sorted list (stable). -/
def orderByInsert (x : String) : List String → List String
  | [] => [x]
  | y :: ys => if strLe x y then x :: y :: ys else y :: orderByInsert x ys

/-- The table list the catalog query returns: `allTablesQuery` ends in
`ORDER BY table_name`, so the rows arrive sorted by table name whatever the
catalog's internal order is. -/
def allTablesQuery (names : List String) : List String := names.foldr orderByInsert []

example : allTablesQuery ["post", "author", "category"] = ["author", "category", "post"] := by decide

/-! ## Foreign keys, the pivot self-join and association registration -/

/-- One row of the `fkeys` CTE of the foreign-key query: the foreign-key
constraint, its owning table and column, the referenced table and column, and
the name of the owning table's primary-key constraint when the column is part
of it (`pri_key`, nullable via the left outer join). -/
structure FKRow where
  constraint_name : String
  table_name : String
  column_name : String
  reference_table : String
  reference_column : String
  pri_key : Option String := none
deriving DecidableEq

/-- An `fkeys` row after the outer self-join: `other_table` is the reference
table of a joined partner row, or `NULL` when no partner matched. -/
structure FKJoined where
  base : FKRow
  other_table : Option String
deriving DecidableEq

/-- The self-join condition `j.pri_key = fkeys.pri_key AND j.constraint_name
!= fkeys.constraint_name` with SQL null semantics: a `NULL` `pri_key` on
either side makes the equality unknown, hence no join. -/
def joinCond (j f : FKRow) : Bool :=
  match j.pri_key, f.pri_key with
  | some a, some b => a == b && j.constraint_name != f.constraint_name
  | _, _ => false

/-- One base row's r/ows after the left outer self-join: every partner match
produces a joined row; with no partner the row survives once with a `NULL`
`other_table`. -/
def expandRow (rows : List FKRow) (f : FKRow) : List FKJoined :=
  if (rows.filter (fun j => joinCond j f)).isEmpty then [⟨f, none⟩]
  else (rows.filter (fun j => joinCond j f)).map (fun j => ⟨f, some j.reference_table⟩)

/-- The full result of `foreignKeyQuery`: the left outer self-join of the
`fkeys` rows on a shared primary-key constraint. -/
def foreignKeyQueryJoin (rows : List FKRow) : List FKJoined :=
  rows.flatMap (expandRow rows)

/-- The relation statement `generateAssociations` emits for one joined row:
with a pivot partner, `models.Target.belongsToMany(models.Other, { through:
models.Owning, foreignKey: col })`; without one, `models.Owning.belongsTo(
models.Target, { foreignKey: col, as: alias })`. -/
inductive RelCode where
  | belongsToMany (target other pivot fkCol : String)
  | belongsTo (model target fkCol asName : String)
deriving DecidableEq

/-- The relation code for one joined foreign-key row. -/
def rowRelCode (r : FKJoined) : RelCode :=
  match r.other_table with
  | some o =>
    .belongsToMany (toPascalCase r.base.reference_table) (toPascalCase o)
      (toPascalCase r.base.table_name) r.base.column_name
  | none =>
    .belongsTo (toPascalCase r.base.table_name) (toPascalCase r.base.reference_table)
      r.base.column_name (toCamelCase r.base.reference_table)

/-- One entry of the `associations` lookup: the JS objects pushed per table
name.  Entries pushed on the `belongsTo` path carry no `manyToMany` key,
which reads back as falsy; that is modelled as `manyToMany := false`. -/
structure AssEntry where
  manyToMany : Bool
  model : String
  fileName : String
deriving DecidableEq

/-- The `associations[…].push(…)` calls one joined row performs, as
(key, entry) pairs: a pivot row registers a many-to-many entry under each
side's referenced table; a plain row registers one entry under its owning
table. -/
def rowRegs (r : FKJoined) : List (String × AssEntry) :=
  match r.other_table with
  | some o =>
    [ (o, ⟨true, toPascalCase r.base.reference_table, r.base.reference_table⟩),
      (r.base.reference_table, ⟨true, toPascalCase o, o⟩) ]
  | none => [ (r.base.table_name, ⟨false, toPascalCase r.base.reference_table, r.base.reference_table⟩) ]

/-- All registrations of a run, in push order. -/
def buildAssociations (rows : List FKJoined) : List (String × AssEntry) :=
  rows.flatMap rowRegs

/-- `associations[t]`: the entries pushed under table `t`, in push order. -/
def associationsFor (rows : List FKJoined) (t : String) : List AssEntry :=
  (buildAssociations rows).filterMap (fun p => if p.1 == t then some p.2 else none)

/-- Lookup in the seen-model map (`instancedModels[ass.model]`). -/
def seenHas (seen : List String) (m : String) : Bool :=
  match seen with
  | [] => false
  | s :: rest => s == m || seenHas rest m

/-- The per-model deduplication of the TypeScript emitter (`instancedModels`
and `includedModels`): scanning a table's association list in order, an entry
whose target model was already seen is dropped. -/
def instanceEntries : List AssEntry → List String → List AssEntry
  | [], _ => []
  | a :: rest, seen =>
    if seenHas seen a.model then instanceEntries rest seen
    else a :: instanceEntries rest (a.model :: seen)

/-- The two foreign-key rows of the pivot table `post_tag`, whose primary key
is exactly its two foreign-key columns. -/
def fkPostTagPost : FKRow :=
  { constraint_name := "post_tag_post_id_fkey", table_name := "post_tag", column_name := "post_id"
  , reference_table := "post", reference_column := "id", pri_key := some "post_tag_pkey" }

/-- Second side of the `post_tag` pivot. -/
def fkPostTagTag : FKRow :=
  { constraint_name := "post_tag_tag_id_fkey", table_name := "post_tag", column_name := "tag_id"
  , reference_table := "tag", reference_column := "id", pri_key := some "post_tag_pkey" }

/-- The pivot scenario's foreign-key rows. -/
def pivotRows : List FKRow := [fkPostTagPost, fkPostTagTag]

example : foreignKeyQueryJoin pivotRows =
    [⟨fkPostTagPost, some "tag"⟩, ⟨fkPostTagTag, some "post"⟩] := by decide

example : rowRelCode ⟨fkPostTagPost, some "tag"⟩ =
    .belongsToMany "Post" "Tag" "PostTag" "post_id" := by decide

example : rowRelCode ⟨fkPostTagTag, some "post"⟩ =
    .belongsToMany "Tag" "Post" "PostTag" "tag_id" := by decide

example :
    associationsFor (foreignKeyQueryJoin pivotRows) "post" =
      [⟨true, "Tag", "tag"⟩, ⟨true, "Tag", "tag"⟩] ∧
    associationsFor (foreignKeyQueryJoin pivotRows) "tag" =
      [⟨true, "Post", "post"⟩, ⟨true, "Post", "post"⟩] ∧
    associationsFor (foreignKeyQueryJoin pivotRows) "post_tag" = [] := by decide

/-- A plain (non-pivot) foreign-key row from `post` to `author`. -/
def fkPostAuthor : FKRow :=
  { constraint_name := "post_author_id_fkey", table_name := "post", column_name := "author_id"
  , reference_table := "author", reference_column := "id", pri_key := none }

example : foreignKeyQueryJoin [fkPostAuthor] = [⟨fkPostAuthor, none⟩] := by decide

example : rowRelCode ⟨fkPostAuthor, none⟩ =
    .belongsTo "Post" "Author" "author_id" "author" := by decide

/-! ## Claim theorems -/

/-- The wrapper the `ARRAY` branch applies around the element type's
classification result. -/
def wrapArrayData (u : String) (d : TypeData) : TypeData :=
  ⟨"ARRAY(DataTypes." ++ d.dataType ++ ")", "Array", some u, d.tsType ++ "[]"⟩

/-- Claim C9: classifying an `ARRAY` row strips the trailing `[]` from the
element type name, classifies that element directly, and wraps the result;
in particular classifying `integer[]` yields exactly the `ARRAY`-wrap of
classifying `integer`, at nesting depth 1. -/
theorem c9_array_wraps_element :
    (∀ u : String, getColumnType { data_type := "ARRAY", udt_name := some u } =
        (getColumnTypeOfName (stripArraySuffix u)).map (wrapArrayData u))
  ∧ stripArraySuffix "integer[]" = "integer"
  ∧ getColumnTypeOfName "integer" = getColumnType { data_type := "integer" }
  ∧ getColumnType { data_type := "ARRAY", udt_name := some "integer[]" } =
      .ok (wrapArrayData "integer[]" ⟨"INTEGER", "number", none, "number"⟩)
  ∧ getColumnType { data_type := "integer" } = .ok ⟨"INTEGER", "number", none, "number"⟩ := by
  refine ⟨?_, by decide, rfl, rfl, rfl⟩
  intro u
  cases h : getColumnTypeOfName (stripArraySuffix u) <;>
    simp [getColumnType, h, wrapArrayData, Except.map]

/-- A `numeric` column with a plain numeric default text: its scalar kind is
`number`, yet its storage tag is `DOUBLE`, not `INTEGER`. -/
def numericDefaultRow : ColRow := { data_type := "numeric", column_default := some "3.14" }

/-- Claim C2, counterexample: a `numeric` column's raw default `3.14` matches
none of the earlier rules and its scalar kind is `number`, yet the resolver
returns no default at all — the numeric-literal rule tests the storage tag
`INTEGER`, which `numeric` columns (`DOUBLE`) never carry. -/
theorem c2_counterexample :
    (getColumnType numericDefaultRow).map TypeData.docType = .ok "number"
  ∧ numericDefaultRow.column_default = some "3.14"
  ∧ rule1Match "3.14" = none
  ∧ rule2Match "3.14" = none
  ∧ ("3.14" : String) ≠ "now()"
  ∧ strHasStart "3.14" nextvalMarker = false
  ∧ (buildColumn false numericDefaultRow).map ColumnData.defaultValue = .ok none :=
  ⟨rfl, rfl, rfl, rfl, by decide, rfl, rfl⟩

/-- Claim C2 as amended: only for columns whose raw type is `integer` or
`smallint` (storage tag `INTEGER`) does an otherwise-unmatched raw default
resolve to the `parseInt` of the raw text (its leading integer prefix, or
`NaN`); `numeric` columns fall through with no default. -/
theorem c2_amended_integer_default (camelCase : Bool) (row : ColRow) (d : String)
    (hdt : row.data_type = "integer" ∨ row.data_type = "smallint")
    (hd : row.column_default = some d) (hne : d ≠ "")
    (h1 : rule1Match d = none) (h2 : rule2Match d = none)
    (h3 : d ≠ "now()") (h4 : strHasStart d nextvalMarker = false) :
    (buildColumn camelCase row).map ColumnData.defaultValue =
      .ok (some (Lit.numLit (jsParseInt d)))
  ∧ (buildColumn camelCase row).map ColumnData.autoIncrement = .ok false := by
  have hg : getColumnType row = .ok ⟨"INTEGER", "number", none, "number"⟩ := by
    rcases hdt with h | h <;> simp [getColumnType, h]
  have h3b : (d == "now()") = false := beq_eq_false_iff_ne.mpr h3
  have hneb : (d != "") = true := by simp [bne, hne]
  have hrd : resolveDefault "INTEGER" row.data_type row.udt_name row.column_default =
      (some (Lit.numLit (jsParseInt d)), false) := by
    rw [hd]
    simp [resolveDefault, h1, h2, h3b, h4, hneb]
  constructor <;> simp [buildColumn, hg, hrd, Except.map]

/-- An `integer` column with raw default text `42`. -/
def integerDefaultRow : ColRow := { data_type := "integer", column_default := some "42" }

/-- Witness for C2's amended theorem at a concrete `integer` column. -/
theorem c2_witness :
    (buildColumn false integerDefaultRow).map ColumnData.defaultValue =
      .ok (some (Lit.numLit (some 42)))
  ∧ (buildColumn false integerDefaultRow).map ColumnData.autoIncrement = .ok false := by
  have h := c2_amended_integer_default false integerDefaultRow "42" (Or.inl rfl) rfl
    (by decide) rfl rfl (by decide) rfl
  exact ⟨h.1, h.2⟩

/-- If a list starts with `p :: ps`, it is `p` followed by a tail starting with `ps`. -/
theorem chStart_head {p : Char} {ps l : List Char} (h : chStart (p :: ps) l = true) :
    ∃ t, l = p :: t ∧ chStart ps t = true := by
  cases l with
  | nil => simp [chStart] at h
  | cons c cs =>
    simp only [chStart, Bool.and_eq_true, beq_iff_eq] at h
    exact ⟨cs, by rw [h.1], h.2⟩

/-- A text beginning with `nextval(` cannot match the quoted-string rule,
whose pattern is anchored on an opening quote. -/
theorem rule1Match_none_of_nextval {d : String} (h : strHasStart d nextvalMarker = true) :
    rule1Match d = none := by
  obtain ⟨t, ht, _⟩ := chStart_head (h : chStart ('n' :: "extval(".toList) d.toList = true)
  have hq : strHasStart d "'" = false := by
    rw [strHasStart, ht]
    rfl
  simp [rule1Match, hq]

/-- A text beginning with `nextval(` is not the text `now()`. -/
theorem ne_now_of_nextval {d : String} (h : strHasStart d nextvalMarker = true) :
    d ≠ "now()" := by
  intro e
  subst e
  exact absurd h (by decide)

/-- Claim C5 as amended: a raw default text beginning with `nextval(` resolves
to the auto-increment sentinel with no literal default, for every scalar kind
— unless the text also ends in a quoted literal cast to `jsonb`, because the
`jsonb` rule is tried earlier in the chain (the other two earlier rules can
never match a text that begins with `nextval(`). -/
theorem c5_amended_nextval (dataType data_type : String) (udt_name : Option String) (d : String)
    (h : strHasStart d nextvalMarker = true) (h2 : rule2Match d = none) :
    resolveDefault dataType data_type udt_name (some d) = (none, true) := by
  have h1 := rule1Match_none_of_nextval h
  have h3b : (d == "now()") = false := beq_eq_false_iff_ne.mpr (ne_now_of_nextval h)
  simp [resolveDefault, h1, h2, h3b, h]

/-- Claim C5, counterexample: the raw text `nextval('x'::jsonb` begins with
`nextval(`, yet the resolver returns the literal `x` from the earlier `jsonb`
cast rule and does not set auto-increment — auto-increment detection does not
precede every literal-parsing rule. -/
theorem c5_counterexample :
    strHasStart "nextval('x'::jsonb" nextvalMarker = true
  ∧ resolveDefault "INTEGER" "integer" none (some "nextval('x'::jsonb") =
      (some (Lit.rawText "x"), false) := ⟨rfl, rfl⟩

/-- Witness for C5's amended theorem: the ordinary serial-column default. -/
theorem c5_witness :
    resolveDefault "DOUBLE" "numeric" none (some "nextval('foo_id_seq')") = (none, true) :=
  c5_amended_nextval "DOUBLE" "numeric" none "nextval('foo_id_seq')" rfl rfl

/-- Every outcome of the resolution chain either leaves auto-increment off or
is exactly the auto-increment outcome `(no default, auto-increment on)`. -/
theorem resolveDefault_cases (a b : String) (u : Option String) (cd : Option String) :
    (resolveDefault a b u cd).2 = false ∨ resolveDefault a b u cd = (none, true) := by
  cases cd with
  | none => exact Or.inl rfl
  | some d =>
    simp only [resolveDefault]
    repeat' split
    all_goals first
    | exact Or.inl rfl
    | exact Or.inr rfl

/-- Claim C6: no column descriptor the builder produces is both
auto-incrementing and default-valued — the resolution chain's branches are
mutually exclusive, and the `nextval(` branch sets the flag while leaving the
default unset. -/
theorem c6_auto_excludes_default (camelCase : Bool) (row : ColRow) (c : ColumnData)
    (h : buildColumn camelCase row = .ok c) :
    ¬(c.autoIncrement = true ∧ c.defaultValue ≠ none) := by
  rintro ⟨ha, hd⟩
  unfold buildColumn at h
  cases hg : getColumnType row with
  | error e => rw [hg] at h; exact absurd h (by simp)
  | ok td =>
    rw [hg] at h
    simp only [Except.ok.injEq] at h
    subst h
    dsimp only at ha hd
    rcases resolveDefault_cases td.dataType row.data_type row.udt_name row.column_default
      with hc | hc
    · rw [ha] at hc
      exact absurd hc (by simp)
    · exact hd (congrArg Prod.fst hc)

/-- A serial primary-key column row. -/
def serialIdRow : ColRow :=
  { column_name := "id", data_type := "integer"
  , column_default := some "nextval('post_id_seq'::regclass)", keys := ["PRIMARY KEY"] }

/-- The descriptor built for `serialIdRow`. -/
def serialIdCol : ColumnData :=
  { name := "id", field := "id", dataType := "INTEGER", docType := "number", tsType := "number"
  , typeComment := "integer", isPrimaryKey := true, allowNull := false
  , autoIncrement := true, defaultValue := none }

/-- Witness for C6 at a concrete serial column. -/
theorem c6_witness : ¬(serialIdCol.autoIncrement = true ∧ serialIdCol.defaultValue ≠ none) :=
  c6_auto_excludes_default false serialIdRow serialIdCol rfl

/-- No rule of the resolution chain matches: the three leading text patterns
fail, the text does not begin with `nextval(`, and the type-directed rules
(boolean, integer, array, user-defined cast) do not apply. -/
def matchesNoRule (dataType data_type : String) (udt_name : Option String)
    (column_default : Option String) : Bool :=
  match column_default with
  | none => true
  | some d =>
      (rule1Match d).isNone && (rule2Match d).isNone && d != "now()"
      && !(strHasStart d nextvalMarker)
      && (d == "" || dataType != "BOOLEAN")
      && (d == "" || dataType != "INTEGER")
      && (d == "" || data_type != "ARRAY")
      && (data_type != "USER-DEFINED" || (rule8Match (jsUndef udt_name) d).isNone)

/-- Claim C7 as amended: resolution is total and cannot fail, and a raw
default text that matches none of the rules resolves to no default with
auto-increment off.  The exception the counterexample forces: for
`INTEGER`-storage columns a present text with no leading digits still matches
the numeric rule and yields a `NaN` literal rather than no default. -/
theorem c7_amended_unmatched_no_default (dataType data_type : String)
    (udt_name : Option String) (column_default : Option String)
    (h : matchesNoRule dataType data_type udt_name column_default = true) :
    resolveDefault dataType data_type udt_name column_default = (none, false) := by
  cases column_default with
  | none => rfl
  | some d =>
    simp only [matchesNoRule, Bool.and_eq_true, Bool.or_eq_true, Bool.not_eq_true',
      Option.isNone_iff_eq_none, beq_iff_eq, bne_iff_ne] at h
    obtain ⟨⟨⟨⟨⟨⟨⟨h1, h2⟩, h3⟩, h4⟩, h5⟩, h6⟩, h7⟩, h8⟩ := h
    have h3b : (d == "now()") = false := beq_eq_false_iff_ne.mpr h3
    have hlast : (if (data_type == "USER-DEFINED") = true then
        (match rule8Match (jsUndef udt_name) d with
         | some cap => (some (Lit.jsonStr cap), false)
         | none => ((none : Option Lit), false))
        else ((none : Option Lit), false)) = ((none : Option Lit), false) := by
      rcases h8 with h8 | h8
      · rw [if_neg]
        simp [h8]
      · split
        · rw [h8]
        · rfl
    by_cases hd : d = ""
    · subst hd
      simp only [resolveDefault, h1, h2, h3b, h4]
      simpa using hlast
    · have hdb : (d != "") = true := bne_iff_ne.mpr hd
      have h5b : (dataType == "BOOLEAN") = false :=
        beq_eq_false_iff_ne.mpr ((h5.resolve_left) hd)
      have h6b : (dataType == "INTEGER") = false :=
        beq_eq_false_iff_ne.mpr ((h6.resolve_left) hd)
      have h7b : (data_type == "ARRAY") = false :=
        beq_eq_false_iff_ne.mpr ((h7.resolve_left) hd)
      simp only [resolveDefault, h1, h2, h3b, h4, hdb, h5b, h6b, h7b]
      simpa using hlast

/-- Claim C7, counterexample: the unparseable default text `NULL::integer` on
an `integer` column does not silently resolve to "no default" — it matches
the numeric rule's guard and is assigned the malformed literal `NaN`
(`parseInt` of a text with no leading digits), which the emitter would print
as `defaultValue: NaN`. -/
theorem c7_counterexample :
    resolveDefault "INTEGER" "integer" none (some "NULL::integer") =
      (some (Lit.numLit none), false)
  ∧ jsParseInt "NULL::integer" = none
  ∧ litText (Lit.numLit none) = "NaN" := ⟨rfl, rfl, rfl⟩

/-- Witness for C7's amended theorem at a concrete unmatched text. -/
theorem c7_witness :
    resolveDefault "TEXT" "text" none (some "whatever()") = (none, false) :=
  c7_amended_unmatched_no_default "TEXT" "text" none (some "whatever()") (by decide)

/-- Counting dedup survivors by target model: a model already seen leaves no
survivor; an unseen model leaves exactly one survivor precisely when it
occurs in the scanned list. -/
theorem instanceEntries_countP (l : List AssEntry) : ∀ (seen : List String) (m : String),
    (seenHas seen m = true → (instanceEntries l seen).countP (fun b => b.model == m) = 0)
  ∧ (seenHas seen m = false →
      (instanceEntries l seen).countP (fun b => b.model == m) =
        if l.any (fun a => a.model == m) then 1 else 0) := by
  induction l with
  | nil =>
    intro seen m
    constructor <;> intro hm <;> simp [instanceEntries]
  | cons a rest ih =>
    intro seen m
    constructor
    · intro hm
      by_cases hc : seenHas seen a.model = true
      · simp only [instanceEntries, if_pos hc]
        exact (ih seen m).1 hm
      · simp only [instanceEntries, if_neg hc]
        rw [List.countP_cons]
        have hne : (a.model == m) = false := by
          cases hb : a.model == m
          · rfl
          · exfalso
            rw [beq_iff_eq] at hb
            rw [hb] at hc
            exact hc hm
        have hseen : seenHas (a.model :: seen) m = true := by
          rw [seenHas, hm]
          simp
        rw [(ih (a.model :: seen) m).1 hseen]
        simp [hne]
    · intro hm
      by_cases hc : seenHas seen a.model = true
      · simp only [instanceEntries, if_pos hc]
        have hne : (a.model == m) = false := by
          cases hb : a.model == m
          · rfl
          · exfalso
            rw [beq_iff_eq] at hb
            rw [hb, hm] at hc
            exact Bool.false_ne_true hc
        rw [(ih seen m).2 hm]
        simp [List.any_cons, hne]
      · simp only [instanceEntries, if_neg hc]
        rw [List.countP_cons]
        cases hb : a.model == m
        · have hseen : seenHas (a.model :: seen) m = false := by
            rw [seenHas, hb, hm]
            rfl
          rw [(ih (a.model :: seen) m).2 hseen]
          simp [List.any_cons, hb]
        · have hseen : seenHas (a.model :: seen) m = true := by
            rw [seenHas, hb]
            rfl
          rw [(ih (a.model :: seen) m).1 hseen]
          simp [List.any_cons, hb]

/-- Claim C4: assembling a table's output deduplicates by target model —
whatever association list a table accumulated, each registered target model
produces exactly one association block, so two foreign keys to the same
target collapse to one block and repeated registration is a no-op beyond the
first. -/
theorem c4_dedup_by_target_model (l : List AssEntry) (a : AssEntry) (h : a ∈ l) :
    (instanceEntries l []).countP (fun b => b.model == a.model) = 1 := by
  rw [(instanceEntries_countP l [] a.model).2 rfl, if_pos]
  exact List.any_eq_true.mpr ⟨a, h, by simp⟩

/-- A second foreign key from `post` to `author`, with no pivot partner. -/
def fkPostEditor : FKRow :=
  { constraint_name := "post_editor_id_fkey", table_name := "post", column_name := "editor_id"
  , reference_table := "author", reference_column := "id", pri_key := none }

/-- The association entries accumulated for `post` when it has two foreign
keys to `author`. -/
def doubleFkEntries : List AssEntry :=
  associationsFor (foreignKeyQueryJoin [fkPostAuthor, fkPostEditor]) "post"

/-- Witness for C4: the two same-target registrations collapse to one block. -/
theorem c4_witness :
    doubleFkEntries = [⟨false, "Author", "author"⟩, ⟨false, "Author", "author"⟩]
  ∧ (instanceEntries doubleFkEntries []).countP (fun b => b.model == "Author") = 1 := by
  refine ⟨by decide, ?_⟩
  exact c4_dedup_by_target_model doubleFkEntries ⟨false, "Author", "author"⟩ (by decide)

/-- A successfully built descriptor's primary-key flag is exactly the row's
`PRIMARY KEY` constraint membership. -/
theorem buildColumn_isPrimaryKey (camelCase : Bool) (row : ColRow) (c : ColumnData)
    (h : buildColumn camelCase row = .ok c) :
    c.isPrimaryKey = row.keys.contains "PRIMARY KEY" := by
  unfold buildColumn at h
  cases hg : getColumnType row with
  | error e => rw [hg] at h; exact absurd h (by simp)
  | ok td =>
    rw [hg] at h
    simp only [Except.ok.injEq] at h
    subst h
    rfl

/-- Without the inclusion flag, the row loop never reaches a foreign-key row:
skipping them is the same as filtering them out up front. -/
theorem generateColumns_skips_fk (camelCase : Bool) (rows : List ColRow) :
    generateColumns false camelCase rows =
      generateColumns false camelCase
        (rows.filter (fun r => !(r.keys.contains "FOREIGN KEY"))) := by
  induction rows with
  | nil => rfl
  | cons r rest ih =>
    by_cases hf : r.keys.contains "FOREIGN KEY" = true
    · simp only [generateColumns, List.filter_cons, hf, Bool.not_true, Bool.true_and,
        Bool.not_false, if_true, if_false]
      simpa using ih
    · have hf' : r.keys.contains "FOREIGN KEY" = false := by
        cases hb : r.keys.contains "FOREIGN KEY"
        · rfl
        · exact absurd hb hf
      simp only [generateColumns, List.filter_cons, hf', Bool.not_false, Bool.true_and, if_true,
        Bool.false_eq_true, if_false]
      rw [ih]

/-- Claim C10: with the foreign-key-inclusion flag off, every column whose
constraint set contains `FOREIGN KEY` is omitted — the loop is the loop over
the non-foreign-key rows — and when every `PRIMARY KEY` row of a table is
also a `FOREIGN KEY` row (a pure pivot table), no produced descriptor carries
the primary-key flag. -/
theorem c10_fk_columns_omitted (camelCase : Bool) (rows : List ColRow) :
    generateColumns false camelCase rows =
      generateColumns false camelCase
        (rows.filter (fun r => !(r.keys.contains "FOREIGN KEY")))
  ∧ ∀ cols, generateColumns false camelCase rows = .ok cols →
      (∀ r ∈ rows, r.keys.contains "PRIMARY KEY" = true →
        r.keys.contains "FOREIGN KEY" = true) →
      ∀ c ∈ cols, c.isPrimaryKey = false := by
  refine ⟨generateColumns_skips_fk camelCase rows, ?_⟩
  induction rows with
  | nil =>
    intro cols h hpk c hc
    simp only [generateColumns] at h
    cases h
    cases hc
  | cons r rest ih =>
    intro cols h hpk c hc
    by_cases hf : r.keys.contains "FOREIGN KEY" = true
    · simp only [generateColumns, hf, Bool.not_false, Bool.true_and, if_true] at h
      exact ih cols h (fun x hx => hpk x (List.mem_cons_of_mem r hx)) c hc
    · have hf' : r.keys.contains "FOREIGN KEY" = false := by
        cases hb : r.keys.contains "FOREIGN KEY"
        · rfl
        · exact absurd hb hf
      simp only [generateColumns, hf', Bool.not_false, Bool.true_and, Bool.false_eq_true,
        if_false] at h
      cases hb : buildColumn camelCase r with
      | error e => rw [hb] at h; exact absurd h (by simp)
      | ok c0 =>
        rw [hb] at h
        cases hrest : generateColumns false camelCase rest with
        | error e => rw [hrest] at h; exact absurd h (by simp)
        | ok cs =>
          rw [hrest] at h
          simp only [Except.ok.injEq] at h
          subst h
          rcases List.mem_cons.mp hc with hc0 | hcs
          · subst hc0
            rw [buildColumn_isPrimaryKey camelCase r c hb]
            cases hpkr : r.keys.contains "PRIMARY KEY"
            · rfl
            · exact absurd (hpk r (List.mem_cons_self r rest) hpkr) (by rw [hf']; simp)
          · exact ih cs hrest (fun x hx => hpk x (List.mem_cons_of_mem r hx)) c hcs

/-- The two foreign-key primary-key columns of the pivot table `post_tag`,
plus one ordinary column. -/
def pivotColRows : List ColRow :=
  [ { column_name := "post_id", data_type := "integer", keys := ["PRIMARY KEY", "FOREIGN KEY"] }
  , { column_name := "tag_id", data_type := "integer", keys := ["PRIMARY KEY", "FOREIGN KEY"] }
  , { column_name := "created_at", data_type := "timestamp with time zone"
    , column_default := some "now()" } ]

/-- The descriptors the loop keeps for `pivotColRows` with foreign keys off. -/
def pivotKeptCols : List ColumnData :=
  [ { name := "created_at", field := "created_at", dataType := "DATE", docType := "Date"
    , tsType := "Date", typeComment := "timestamp with time zone", isPrimaryKey := false
    , allowNull := false, autoIncrement := false, defaultValue := some Lit.nowSentinel } ]

/-- Witness for C10 at the concrete pivot table: both primary-key columns are
omitted and no kept descriptor is a primary key. -/
theorem c10_witness : ∀ c ∈ pivotKeptCols, c.isPrimaryKey = false :=
  (c10_fk_columns_omitted false pivotColRows).2 pivotKeptCols rfl (by decide)

/-- Claim C8 as amended: the generation loop produces exactly one model
definition per table, in the order of the table rows the catalog query
returned — the loop itself performs no reordering.  (The catalog query ends
in `ORDER BY table_name`, so that row order is itself alphabetical; see the
counterexample.) -/
theorem c8_defs_in_query_order (includeForeignKeys camelCase : Bool)
    (colsOf : String → List ColRow) (tables : List String) (defs : List ModelDef)
    (h : generateDefinitions includeForeignKeys camelCase colsOf tables = .ok defs) :
    defs.map ModelDef.tableName = tables := by
  induction tables generalizing defs with
  | nil =>
    simp only [generateDefinitions, Except.ok.injEq] at h
    subst h
    rfl
  | cons t ts ih =>
    simp only [generateDefinitions] at h
    cases h1 : generateTableDefinition includeForeignKeys camelCase colsOf t with
    | error e => rw [h1] at h; exact absurd h (by simp)
    | ok d =>
      rw [h1] at h
      cases h2 : generateDefinitions includeForeignKeys camelCase colsOf ts with
      | error e => rw [h2] at h; exact absurd h (by simp)
      | ok ds =>
        rw [h2] at h
        simp only [Except.ok.injEq] at h
        subst h
        have hd : d.tableName = t := by
          unfold generateTableDefinition at h1
          cases h3 : generateColumns includeForeignKeys camelCase (colsOf t) with
          | error e => rw [h3] at h1; exact absurd h1 (by simp)
          | ok cs =>
            rw [h3] at h1
            simp only [Except.ok.injEq] at h1
            subst h1
            rfl
        simp [hd, ih ds h2]

/-- Claim C8, counterexample to its "(not alphabetical order)" part: the
catalog query sorts by table name, so the row order the loop follows — and
hence the order of the produced definitions — is the alphabetical order of
the table names, not the catalog's raw order. -/
theorem c8_counterexample :
    allTablesQuery ["b", "a"] = ["a", "b"]
  ∧ generateDefinitions false false (fun _ => []) (allTablesQuery ["b", "a"]) =
      .ok [⟨"a", []⟩, ⟨"b", []⟩]
  ∧ strLe "a" "b" = true
  ∧ (["a", "b"] : List String) ≠ ["b", "a"] := ⟨rfl, rfl, rfl, by decide⟩

/-- Witness for C8's amended theorem at a concrete two-table run. -/
theorem c8_witness :
    List.map ModelDef.tableName [⟨"a", []⟩, ⟨"b", []⟩] = ["a", "b"] :=
  c8_defs_in_query_order false false (fun _ => []) ["a", "b"] [⟨"a", []⟩, ⟨"b", []⟩] rfl

/-- The scalar (non-`ARRAY`, non-`USER-DEFINED`) raw type names the classifier
supports. -/
def supportedScalarNames : List String :=
  ["integer", "smallint", "numeric", "character varying", "character", "date",
   "timestamp with time zone", "jsonb", "json", "boolean", "text"]

/-- The fixed enumeration of scalar kinds the classifier can produce. -/
def scalarKinds : List String := ["number", "string", "Date", "Object", "boolean", "Array"]

/-- Classifying a supported scalar name (with no auxiliary inputs) succeeds
with a scalar kind from the fixed enumeration. -/
theorem getColumnTypeOfName_supported (dt : String) (h : dt ∈ supportedScalarNames) :
    ∃ d, getColumnTypeOfName dt = .ok d ∧ d.docType ∈ scalarKinds := by
  simp only [supportedScalarNames, List.mem_cons, List.not_mem_nil, or_false] at h
  rcases h with h|h|h|h|h|h|h|h|h|h|h <;> subst h <;> exact ⟨_, rfl, by decide⟩

/-- Claim C3: type classification fails exactly outside the supported set —
every supported scalar name classifies to a triple whose scalar kind is in
the fixed enumeration; `USER-DEFINED` with its label set present classifies;
`ARRAY` with a supported element name classifies; and any name outside the
set fails with the fatal `Unhandled data type` error, with no fallback. -/
theorem c3_classification_total_on_supported (row : ColRow) :
    (row.data_type ∈ supportedScalarNames →
      ∃ d, getColumnType row = .ok d ∧ d.docType ∈ scalarKinds)
  ∧ (row.data_type = "USER-DEFINED" → ∀ ev, row.enum_values = some ev →
      ∃ d, getColumnType row = .ok d ∧ d.docType = "string" ∧ d.docType ∈ scalarKinds)
  ∧ (row.data_type = "ARRAY" → ∀ u, row.udt_name = some u →
      stripArraySuffix u ∈ supportedScalarNames →
      ∃ d, getColumnType row = .ok d ∧ d.docType = "Array" ∧ d.docType ∈ scalarKinds)
  ∧ (row.data_type ∉ supportedScalarNames → row.data_type ≠ "USER-DEFINED" →
      row.data_type ≠ "ARRAY" →
      getColumnType row = .error ("Unhandled data type: " ++ row.data_type)) := by
  refine ⟨?_, ?_, ?_, ?_⟩
  · intro h
    simp only [supportedScalarNames, List.mem_cons, List.not_mem_nil, or_false] at h
    rcases h with h|h|h|h|h|h|h|h|h|h|h <;> simp [getColumnType, h, scalarKinds]
  · intro h1 ev h2
    refine ⟨⟨"ENUM('" ++ joinWith "', '" (enumLabels ev) ++ "')", "string",
        some ("user defined type: " ++ jsUndef row.udt_name), "string"⟩, ?_, rfl,
      by simp [scalarKinds]⟩
    simp [getColumnType, h1, h2]
  · intro h1 u h2 hm
    obtain ⟨inner, hin, _⟩ := getColumnTypeOfName_supported _ hm
    refine ⟨⟨"ARRAY(DataTypes." ++ inner.dataType ++ ")", "Array", some u,
        inner.tsType ++ "[]"⟩, ?_, rfl, by simp [scalarKinds]⟩
    simp [getColumnType, h1, h2, hin]
  · intro hn hud harr
    simp only [supportedScalarNames, List.mem_cons, List.not_mem_nil, or_false, not_or] at hn
    obtain ⟨n1, n2, n3, n4, n5, n6, n7, n8, n9, n10, n11⟩ := hn
    simp [getColumnType, beq_iff_eq, n1, n2, n3, n4, n5, n6, n7, n8, n9, n10, n11, hud, harr]

/-- A row with a raw type name outside the classifier's mapping. -/
def moneyRow : ColRow := { data_type := "money" }

/-- Witness for C3 at concrete rows: a supported name classifies, an
unsupported one fails with the fatal error. -/
theorem c3_witness :
    (∃ d, getColumnType { data_type := "integer" } = .ok d ∧ d.docType ∈ scalarKinds)
  ∧ getColumnType moneyRow = .error ("Unhandled data type: " ++ "money") :=
  ⟨(c3_classification_total_on_supported { data_type := "integer" }).1 (by decide),
   (c3_classification_total_on_supported moneyRow).2.2.2 (by decide) (by decide) (by decide)⟩

/-- The self-join condition is symmetric. -/
theorem joinCond_symm {j f : FKRow} (h : joinCond j f = true) : joinCond f j = true := by
  unfold joinCond at h ⊢
  cases hj : j.pri_key with
  | none => rw [hj] at h; cases hf : f.pri_key <;> simp at h
  | some a =>
    cases hf : f.pri_key with
    | none => rw [hj, hf] at h; simp at h
    | some b =>
      rw [hj, hf] at h
      simp only [Bool.and_eq_true, beq_iff_eq, bne_iff_ne] at h ⊢
      exact ⟨h.1.symm, h.2.symm⟩

/-- A joined row with a pivot partner decomposes into its base row and a
partner row satisfying the join condition. -/
theorem mem_expandRow_some {rows : List FKRow} {f : FKRow} {r : FKJoined} {o : String}
    (h : r ∈ expandRow rows f) (ho : r.other_table = some o) :
    r.base = f ∧ ∃ j ∈ rows, joinCond j f = true ∧ j.reference_table = o := by
  unfold expandRow at h
  split at h
  · simp only [List.mem_singleton] at h
    subst h
    simp at ho
  · rw [List.mem_map] at h
    obtain ⟨j, hj, hr⟩ := h
    subst hr
    simp only at ho
    obtain ⟨hj1, hj2⟩ := List.mem_filter.mp hj
    refine ⟨rfl, j, hj1, hj2, ?_⟩
    simpa using ho

/-- A base row with a partner in the row set produces the corresponding
joined row. -/
theorem partner_mem_expandRow {rows : List FKRow} {j f : FKRow}
    (hj : j ∈ rows) (hc : joinCond j f = true) :
    (⟨f, some j.reference_table⟩ : FKJoined) ∈ expandRow rows f := by
  have hmem : j ∈ rows.filter (fun x => joinCond x f) := List.mem_filter.mpr ⟨hj, hc⟩
  unfold expandRow
  split
  · rename_i he
    rw [List.isEmpty_iff] at he
    rw [he] at hmem
    cases hmem
  · exact List.mem_map.mpr ⟨j, hmem, rfl⟩

/-- Claim C1: for every joined foreign-key row whose pivot field is set, the
resolver emits a `belongsToMany` through the owning (pivot) table and
registers a many-to-many entry under each side's referenced table — and such
rows come in symmetric pairs naming the same pivot; moreover a base row that
has a pivot partner never produces a `belongsTo` row.  The hypothesis `hpk`
records that a shared primary-key constraint name identifies one owning
table, which is how the catalog names primary-key constraints. -/
theorem c1_pivot_pairs (rows : List FKRow)
    (hpk : ∀ a ∈ rows, ∀ b ∈ rows, joinCond a b = true → a.table_name = b.table_name) :
    (∀ r ∈ foreignKeyQueryJoin rows, ∀ o, r.other_table = some o →
      rowRelCode r = RelCode.belongsToMany (toPascalCase r.base.reference_table)
          (toPascalCase o) (toPascalCase r.base.table_name) r.base.column_name
      ∧ rowRegs r = [ (o, ⟨true, toPascalCase r.base.reference_table, r.base.reference_table⟩),
            (r.base.reference_table, ⟨true, toPascalCase o, o⟩) ]
      ∧ ∃ r' ∈ foreignKeyQueryJoin rows,
          r'.base.reference_table = o ∧ r'.other_table = some r.base.reference_table
          ∧ r'.base.table_name = r.base.table_name
          ∧ rowRelCode r' = RelCode.belongsToMany (toPascalCase o)
              (toPascalCase r.base.reference_table) (toPascalCase r.base.table_name)
              r'.base.column_name)
  ∧ (∀ f ∈ rows, (∃ j ∈ rows, joinCond j f = true) →
      ∀ q ∈ expandRow rows f, q.other_table ≠ none) := by
  constructor
  · intro r hr o ho
    obtain ⟨f, hf, hrf⟩ := List.mem_flatMap.mp hr
    obtain ⟨hbase, j, hj, hcj, hjo⟩ := mem_expandRow_some hrf ho
    refine ⟨?_, ?_, ?_⟩
    · rcases r with ⟨rb, rot⟩
      simp only at ho
      subst ho
      rfl
    · rcases r with ⟨rb, rot⟩
      simp only at ho
      subst ho
      rfl
    · have hcf : joinCond f j = true := joinCond_symm hcj
      have hmem : (⟨j, some f.reference_table⟩ : FKJoined) ∈ expandRow rows j :=
        partner_mem_expandRow hf hcf
      have htn : j.table_name = f.table_name := hpk j hj f hf hcj
      refine ⟨⟨j, some f.reference_table⟩, List.mem_flatMap.mpr ⟨j, hj, hmem⟩, ?_, ?_, ?_, ?_⟩
      · simpa using hjo
      · simp [hbase]
      · simp [htn, hbase]
      · simp only [rowRelCode]
        rw [hjo, htn, hbase]
  · intro f hf hex q hq
    obtain ⟨j, hj, hc⟩ := hex
    have hmem : j ∈ rows.filter (fun x => joinCond x f) := List.mem_filter.mpr ⟨hj, hc⟩
    unfold expandRow at hq
    split at hq
    · rename_i he
      rw [List.isEmpty_iff] at he
      rw [he] at hmem
      cases hmem
    · rw [List.mem_map] at hq
      obtain ⟨x, _, hxq⟩ := hq
      subst hxq
      simp

/-- Witness for C1 at the `post_tag` pivot: both sides get a symmetric
`belongsToMany` through `PostTag`, and no `belongsTo` row is produced for
`post_tag`'s foreign-key columns. -/
theorem c1_witness :
    rowRelCode ⟨fkPostTagPost, some "tag"⟩ =
      RelCode.belongsToMany "Post" "Tag" "PostTag" "post_id"
  ∧ rowRegs ⟨fkPostTagPost, some "tag"⟩ =
      [("tag", ⟨true, "Post", "post"⟩), ("post", ⟨true, "Tag", "tag"⟩)]
  ∧ (∃ r' ∈ foreignKeyQueryJoin pivotRows,
      r'.base.reference_table = "tag" ∧ r'.other_table = some "post"
      ∧ r'.base.table_name = "post_tag"
      ∧ rowRelCode r' = RelCode.belongsToMany "Tag" "Post" "PostTag"
          r'.base.column_name) := by
  have h := (c1_pivot_pairs pivotRows (by decide)).1 ⟨fkPostTagPost, some "tag"⟩
    (by decide) "tag" rfl
  exact ⟨h.1, h.2.1, h.2.2⟩
